import Mathlib

set_option maxRecDepth 40000

/-!
Verification of the alure entitlement engine: license-key generation and
checksum validation (`generate_license_keys.py`), the license-record engine
(`license_manager.py`), and the receipt SDK (`sdk-python/alure_sdk`).

The Python code is shallowly embedded: pure functions become Lean functions,
machine integers are `Nat`/`Int` with explicit reduction modulo `2 ^ 32`
where the hash arithmetic overflows, and fallible code returns
`Option`/`Except`.  SHA-256 is implemented concretely (FIPS 180-4) so that
checksum claims can be evaluated on real inputs.  Nondeterministic or
external effects (Fernet encryption, HMAC, Ed25519 signature verification,
the wall clock, ISO-8601 rendering, JSON/base64 codecs, file contents) are
passed in as explicit parameters, so each theorem quantifies over them.
-/

namespace Sha256

/-- Modulus for 32-bit words. -/
def M32 : Nat := 4294967296

/-- Addition modulo `2 ^ 32`. -/
def add32 (a b : Nat) : Nat := (a + b) % M32

/-- Right rotation of a 32-bit word. -/
def rotr (n x : Nat) : Nat := (x >>> n) ||| ((x <<< (32 - n)) % M32)

/-- Logical right shift. -/
def shr (n x : Nat) : Nat := x >>> n

/-- Big sigma-0 of FIPS 180-4. -/
def bigS0 (x : Nat) : Nat := (rotr 2 x) ^^^ (rotr 13 x) ^^^ (rotr 22 x)

/-- Big sigma-1 of FIPS 180-4. -/
def bigS1 (x : Nat) : Nat := (rotr 6 x) ^^^ (rotr 11 x) ^^^ (rotr 25 x)

/-- Small sigma-0 of FIPS 180-4. -/
def smallS0 (x : Nat) : Nat := (rotr 7 x) ^^^ (rotr 18 x) ^^^ (shr 3 x)

/-- Small sigma-1 of FIPS 180-4. -/
def smallS1 (x : Nat) : Nat := (rotr 17 x) ^^^ (rotr 19 x) ^^^ (shr 10 x)

/-- Choice function: bits of `y` where `x` is set, of `z` elsewhere. -/
def ch (x y z : Nat) : Nat := (x &&& y) ^^^ ((x ^^^ (M32 - 1)) &&& z)

/-- Majority function. -/
def maj (x y z : Nat) : Nat := (x &&& y) ^^^ (x &&& z) ^^^ (y &&& z)

/-- Round constants `K[0] = 0x428a2f98` through `K[63] = 0xc67178f2` of
FIPS 180-4, written in decimal. -/
def K : List Nat :=
  [1116352408, 1899447441, 3049323471, 3921009573, 961987163, 1508970993,
   2453635748, 2870763221, 3624381080, 310598401, 607225278, 1426881987,
   1925078388, 2162078206, 2614888103, 3248222580, 3835390401, 4022224774,
   264347078, 604807628, 770255983, 1249150122, 1555081692, 1996064986,
   2554220882, 2821834349, 2952996808, 3210313671, 3336571891, 3584528711,
   113926993, 338241895, 666307205, 773529912, 1294757372, 1396182291,
   1695183700, 1986661051, 2177026350, 2456956037, 2730485921, 2820302411,
   3259730800, 3345764771, 3516065817, 3600352804, 4094571909, 275423344,
   430227734, 506948616, 659060556, 883997877, 958139571, 1322822218,
   1537002063, 1747873779, 1955562222, 2024104815, 2227730452, 2361852424,
   2428436474, 2756734187, 3204031479, 3329325298]

/-- The running hash state: eight 32-bit words. -/
structure Hs where
  a : Nat
  b : Nat
  c : Nat
  d : Nat
  e : Nat
  f : Nat
  g : Nat
  h : Nat
deriving DecidableEq

/-- Initial hash value `H₀ = 0x6a09e667` through `H₇ = 0x5be0cd19` of
FIPS 180-4, written in decimal. -/
def initH : Hs :=
  ⟨1779033703, 3144134277, 1013904242, 2773480762,
   1359893119, 2600822924, 528734635, 1541459225⟩

/-- The message length as eight big-endian bytes (bit count). -/
def lenBytes (n : Nat) : List Nat :=
  [(n >>> 56) % 256, (n >>> 48) % 256, (n >>> 40) % 256, (n >>> 32) % 256,
   (n >>> 24) % 256, (n >>> 16) % 256, (n >>> 8) % 256, n % 256]

/-- FIPS 180-4 padding: a `0x80` byte, zeros to 56 mod 64, then the bit length. -/
def padBytes (msg : List Nat) : List Nat :=
  msg ++ 0x80 :: List.replicate ((119 - msg.length % 64) % 64) 0 ++ lenBytes (msg.length * 8)

/-- Pack bytes into big-endian 32-bit words. -/
def toWords : List Nat → List Nat
  | b0 :: b1 :: b2 :: b3 :: rest => (((b0 * 256 + b1) * 256 + b2) * 256 + b3) :: toWords rest
  | _ => []

/-- Extend the 16 block words with `n` further schedule words. -/
def extendW : Nat → List Nat → List Nat
  | 0, w => w
  | n + 1, w =>
    let i := w.length
    extendW n (w ++ [add32 (add32 (smallS1 (w.getD (i - 2) 0)) (w.getD (i - 7) 0))
                          (add32 (smallS0 (w.getD (i - 15) 0)) (w.getD (i - 16) 0))])

/-- One compression round. -/
def round (st : Hs) (kw : Nat × Nat) : Hs :=
  let t1 := add32 st.h (add32 (bigS1 st.e) (add32 (ch st.e st.f st.g) (add32 kw.1 kw.2)))
  let t2 := add32 (bigS0 st.a) (maj st.a st.b st.c)
  ⟨add32 t1 t2, st.a, st.b, st.c, add32 st.d t1, st.e, st.f, st.g⟩

/-- Compress one 64-byte block into the state. -/
def compress (st : Hs) (block : List Nat) : Hs :=
  let w := extendW 48 (toWords block)
  let r := (K.zip w).foldl round st
  ⟨add32 st.a r.a, add32 st.b r.b, add32 st.c r.c, add32 st.d r.d,
   add32 st.e r.e, add32 st.f r.f, add32 st.g r.g, add32 st.h r.h⟩

/-- Process `n` 64-byte blocks. -/
def processBlocks : Nat → Hs → List Nat → Hs
  | 0, st, _ => st
  | n + 1, st, bytes => processBlocks n (compress st (bytes.take 64)) (bytes.drop 64)

/-- The final state after hashing a byte string. -/
def finalState (msg : List Nat) : Hs :=
  let padded := padBytes msg
  processBlocks (padded.length / 64) initH padded

/-- Lowercase hexadecimal digits. -/
def hexDigitChars : List Char := "0123456789abcdef".data

/-- One lowercase hex digit. -/
def hexDigit (n : Nat) : Char := hexDigitChars.getD (n % 16) '0'

/-- A 32-bit word as eight lowercase hex characters. -/
def wordHex (w : Nat) : List Char :=
  [hexDigit (w >>> 28), hexDigit (w >>> 24), hexDigit (w >>> 20), hexDigit (w >>> 16),
   hexDigit (w >>> 12), hexDigit (w >>> 8), hexDigit (w >>> 4), hexDigit w]

/-- The lowercase hex digest of a byte string, as `hashlib.sha256(...).hexdigest()`. -/
def hexdigestBytes (msg : List Nat) : List Char :=
  let st := finalState msg
  [st.a, st.b, st.c, st.d, st.e, st.f, st.g, st.h].flatMap wordHex

end Sha256

/-- UTF-8 code of each character; the inputs the engine hashes are ASCII, where
Python's `str.encode()` yields exactly these bytes. -/
def strBytes (s : String) : List Nat := s.data.map Char.toNat

/-- Model of Python `hashlib.sha256(s.encode()).hexdigest()`. -/
def sha256hex (s : String) : String := String.mk (Sha256.hexdigestBytes (strBytes s))

/-- Python `str.split(sep)` for a single-character separator, on character
lists: splits at every occurrence of `sep`, keeping empty pieces; the empty
string yields one empty piece, exactly as `"".split('-')` does. -/
def splitChar (sep : Char) : List Char → List (List Char)
  | [] => [[]]
  | c :: cs =>
    let r := splitChar sep cs
    if c = sep then [] :: r else (c :: r.headD []) :: r.tail

/-- Python `s.split(sep)` for a one-character separator. -/
def pySplit (sep : Char) (s : String) : List String :=
  (splitChar sep s.data).map String.mk

/-- Python `str.upper` on one character, for the ASCII range the engine uses. -/
def upChar (c : Char) : Char :=
  if 97 ≤ c.toNat ∧ c.toNat ≤ 122 then Char.ofNat (c.toNat - 32) else c

/-- Python `s.upper()` (ASCII range). -/
def pyUpper (s : String) : String := String.mk (s.data.map upChar)

/-- Python slicing `s[:n]`. -/
def pyTake (n : Nat) (s : String) : String := String.mk (s.data.take n)

/-- Python `s.ljust(n, fill)`: pad on the right up to width `n`. -/
def ljust (n : Nat) (fill : Char) (s : String) : String :=
  String.mk (s.data ++ List.replicate (n - s.data.length) fill)

/-- Python substring test `needle in hay`. -/
def pyContains (hay needle : String) : Bool :=
  (List.range (hay.data.length + 1)).any (fun i => needle.data.isPrefixOf (hay.data.drop i))

/-- Character class `[A-Z]` of the key regexes. -/
def isUpperAZ (c : Char) : Bool := decide (65 ≤ c.toNat) && decide (c.toNat ≤ 90)

/-- Character class `\d` (equivalently `[0-9]`) of the key regexes. -/
def isDigit09 (c : Char) : Bool := decide (48 ≤ c.toNat) && decide (c.toNat ≤ 57)

/-- Character class `[A-Z0-9]` of the key regexes. -/
def isAlnumAZ09 (c : Char) : Bool := isUpperAZ c || isDigit09 c

/-- Number of positions at which two equal-length character lists differ. -/
def countDiff : List Char → List Char → Nat
  | a :: as, b :: bs => (if a = b then 0 else 1) + countDiff as bs
  | _, _ => 0

/-- Join key segments with dashes, as the f-string in the generator does. -/
def dashJoin : List String → String
  | [] => ""
  | [s] => s
  | s :: rest => s ++ "-" ++ dashJoin rest

namespace KeyGen

/-- Type-to-prefix table `LicenseKeyGenerator.LICENSE_PREFIXES`. -/
def LICENSE_PREFIXES : List (String × String) :=
  [("TRIAL", "VT25"), ("STANDARD", "VS24"), ("PROFESSIONAL", "VP24"), ("ENTERPRISE", "VE25")]

/-- The alphabet of `generate_secure_segment`: uppercase letters and digits
with the visually ambiguous `0`, `O`, `1`, `I` removed, in the order the
Python `replace` calls leave them. -/
def secureChars : List Char := "ABCDEFGHJKLMNPQRSTUVWXYZ23456789".data

/-- Model of `LicenseKeyGenerator.generate_checksum`: first 4 hex characters,
upper-cased, of SHA-256 over the concatenation of the given parts. -/
def generate_checksum (key_parts : List String) : String :=
  pyUpper (pyTake 4 (sha256hex (String.join key_parts)))

/-- The customer segment of `generate_license_key`: a truthy customer code is
sliced to 4, upper-cased and right-padded with `X`; `None` or the empty
string falls back to the random 4-character draw. -/
def customerSeg (rand4 : String) : Option String → String
  | some c => if c.data.length ≠ 0 then ljust 4 'X' (pyUpper (pyTake 4 c)) else rand4
  | none => rand4

/-- Model of `LicenseKeyGenerator.generate_license_key`.  The clock read
`datetime.now().strftime("%y%m")` is passed in as `time_segment`, and the two
`generate_secure_segment` draws as `rand4` (used when no customer code is
given) and `rand5`; `none` for an unknown type models the `ValueError`. -/
def generate_license_key (license_type time_segment rand4 rand5 : String)
    (customer_code : Option String) : Option String :=
  match LICENSE_PREFIXES.find? (fun p => p.1 == license_type) with
  | none => none
  | some p =>
    some (dashJoin [p.2, time_segment, customerSeg rand4 customer_code, rand5,
          generate_checksum [p.2, time_segment, customerSeg rand4 customer_code, rand5]])

/-- Model of `LicenseKeyGenerator.validate_generated_key`: exactly five
dash-separated parts whose fifth equals the recomputed checksum. -/
def validate_generated_key (license_key : String) : Bool :=
  match pySplit '-' license_key with
  | [pfx, ts, cs, rs, provided] => provided == generate_checksum [pfx, ts, cs, rs]
  | _ => false

end KeyGen

namespace LM

/-- Supported type table `LicenseManager.LICENSE_TYPES`: name, default
duration in days, features. -/
def LICENSE_TYPES : List (String × Int × List String) :=
  [("TRIAL", (30, ["basic"])),
   ("STANDARD", (365, ["basic", "advanced"])),
   ("PROFESSIONAL", (365, ["basic", "advanced", "premium"])),
   ("ENTERPRISE", (0, ["basic", "advanced", "premium", "enterprise"]))]

/-- Hard-coded `predefined_keys` configuration: key, type, duration in days
(every entry carries a `duration_days`, so the `info.get` default never
fires). -/
def predefined_keys : List (String × String × Int) :=
  [("TRIAL-2024-VERIFICA", ("Trial", 2)),
   ("STANDARD-2024-VERIFICA", ("Standard", 365)),
   ("PRO-2024-VERIFICA", ("Professional", 365)),
   ("ENTERPRISE-2024-VERIFICA", ("Enterprise", 1095)),
   ("MEDIAMARKET-MASTER-2024", ("Enterprise", 3650))]

/-- Value space of the persisted `expiry_date` string.  `unlimited` is the
literal sentinel string `"unlimited"`; `date t` is the `datetime.isoformat`
rendering of the instant `t` (seconds; `isoformat` is injective,
`fromisoformat` inverts it, and `"unlimited"` is not parseable); `bad s` is
any other string, on which `fromisoformat` raises `ValueError`. -/
inductive ExpiryVal where
  | unlimited : ExpiryVal
  | date : Int → ExpiryVal
  | bad : String → ExpiryVal
deriving DecidableEq

/-- Render an `ExpiryVal` back to the string stored in the record, given the
`isoformat` rendering function for instants. -/
def expiryRender (isoRender : Int → String) : ExpiryVal → String
  | ExpiryVal.unlimited => "unlimited"
  | ExpiryVal.date t => isoRender t
  | ExpiryVal.bad s => s

/-- Persisted license record, with the fields `generate_license` writes. -/
structure LicenseData where
  license_key : String
  machine_id : String
  license_type : String
  issued_date : String
  expiry_date : ExpiryVal
  features : List String
  version : String
  signature : String
deriving DecidableEq

/-- The pipe-joined canonical string `_generate_license_signature` signs. -/
def signString (isoRender : Int → String) (d : LicenseData) : String :=
  d.license_key ++ "|" ++ d.machine_id ++ "|" ++ d.license_type ++ "|" ++
    d.issued_date ++ "|" ++ expiryRender isoRender d.expiry_date

/-- Model of `_generate_license_signature`; `hmacHex` stands for
`hmac.new(SECRET_KEY, _, sha256).hexdigest()`, a fixed deterministic function
of the signed string. -/
def generate_license_signature (hmacHex : String → String) (isoRender : Int → String)
    (d : LicenseData) : String :=
  hmacHex (signString isoRender d)

/-- Model of `_verify_license_signature`: recompute and compare
(`hmac.compare_digest` is string equality). -/
def verify_license_signature (hmacHex : String → String) (isoRender : Int → String)
    (d : LicenseData) : Bool :=
  d.signature == generate_license_signature hmacHex isoRender d

/-- The `type_mapping` table of `_analyze_generated_key`. -/
def type_mapping : List (String × String × Int) :=
  [("VT24", ("TRIAL", 7)), ("VS24", ("STANDARD", 365)),
   ("VP24", ("PROFESSIONAL", 1095)), ("VE24", ("ENTERPRISE", 3650)),
   ("VT23", ("TRIAL", 7)), ("VS23", ("STANDARD", 365)),
   ("VP23", ("PROFESSIONAL", 1095)), ("VE23", ("ENTERPRISE", 3650)),
   ("VT25", ("TRIAL", 7)), ("VS25", ("STANDARD", 365)),
   ("VP25", ("PROFESSIONAL", 1095)), ("VE25", ("ENTERPRISE", 0))]

/-- The anchored regex `^([A-Z]{2}\d{2})-(\d{4})-([A-Z0-9]{4})-([A-Z0-9]{5})-([A-Z0-9]{4})$`
on the five dash-split parts; none of the character classes admits `-`, so
matching the whole string is equivalent to these per-part checks. -/
def matchesGeneratedFormat (p1 p2 p3 p4 p5 : List Char) : Bool :=
  p1.length == 4 && p2.length == 4 && p3.length == 4 && p4.length == 5 && p5.length == 4 &&
  (p1.take 2).all isUpperAZ && (p1.drop 2).all isDigit09 &&
  p2.all isDigit09 && p3.all isAlnumAZ09 && p4.all isAlnumAZ09 && p5.all isAlnumAZ09

/-- Model of `LicenseManager._verify_generated_key_checksum` (the manager's
own copy of the generator's checksum check). -/
def verify_generated_key_checksum (license_key : String) : Bool :=
  match pySplit '-' license_key with
  | [pfx, ts, cs, rs, provided] =>
    provided == pyUpper (pyTake 4 (sha256hex (String.join [pfx, ts, cs, rs])))
  | _ => false

/-- The useful content of `_analyze_generated_key`'s `is_valid` result. -/
structure KeyAnalysis where
  type : String
  duration_days : Int
deriving DecidableEq

/-- Model of `LicenseManager._analyze_generated_key`: `some` corresponds to
an `is_valid: True` dictionary, `none` to any of the invalid outcomes. -/
def analyze_generated_key (license_key : String) : Option KeyAnalysis :=
  match pySplit '-' (pyUpper license_key) with
  | [p1, p2, p3, p4, p5] =>
    if matchesGeneratedFormat p1.data p2.data p3.data p4.data p5.data then
      match type_mapping.find? (fun m => m.1 == p1) with
      | some m =>
        if verify_generated_key_checksum (pyUpper license_key) then some ⟨m.2.1, m.2.2⟩
        else none
      | none => none
    else none
  | _ => none

/-- The `test_keys` table of `_determine_license_type`. -/
def test_keys : List (String × String) :=
  [("VTOOL-TRIAL-00001-TEST1", "TRIAL"), ("VTOOL-STAND-00001-TEST1", "STANDARD"),
   ("VTOOL-PROFE-00001-TEST1", "PROFESSIONAL"), ("VTOOL-ENTER-00001-TEST1", "ENTERPRISE")]

/-- The VTOOL-format type code table of `_determine_license_type`. -/
def vtool_type_mapping : List (String × String) :=
  [("TRL", "TRIAL"), ("STD", "STANDARD"), ("PRO", "PROFESSIONAL"), ("ENT", "ENTERPRISE")]

/-- The regex `^VTOOL-([A-Z]+)-(\d{8})-([A-Z0-9]+)$` on the dash-split parts,
returning group 1; as with the generated-key regex, no class admits `-`. -/
def matchesVtoolFormat : List String → Option String
  | [v, tcode, dt, code] =>
    if v == "VTOOL" && decide (0 < tcode.data.length) && tcode.data.all isUpperAZ &&
       dt.data.length == 8 && dt.data.all isDigit09 &&
       decide (0 < code.data.length) && code.data.all isAlnumAZ09
    then some tcode else none
  | _ => none

/-- The last-resort substring heuristics of `_determine_license_type`. -/
def heuristicType (ku : String) : Option String :=
  if pyContains ku "TRIAL" || pyContains ku "TRL" then some "TRIAL"
  else if pyContains ku "STAND" || pyContains ku "STD" then some "STANDARD"
  else if pyContains ku "PROFE" || pyContains ku "PRO" then some "PROFESSIONAL"
  else if pyContains ku "ENTER" || pyContains ku "ENT" then some "ENTERPRISE"
  else none

/-- Model of `LicenseManager._determine_license_type`: predefined keys, then
the generated-key analysis, then test keys, then the VTOOL pattern, then the
substring heuristics. -/
def determine_license_type (license_key : String) : Option String :=
  match predefined_keys.find? (fun p => pyUpper p.1 == pyUpper license_key) with
  | some p => some (pyUpper p.2.1)
  | none =>
    match analyze_generated_key license_key with
    | some a => some a.type
    | none =>
      match test_keys.find? (fun p => p.1 == pyUpper license_key) with
      | some p => some p.2
      | none =>
        match matchesVtoolFormat (pySplit '-' (pyUpper license_key)) with
        | some tcode =>
          match vtool_type_mapping.find? (fun m => m.1 == tcode) with
          | some m => some m.2
          | none => heuristicType (pyUpper license_key)
        | none => heuristicType (pyUpper license_key)

/-- The duration-resolution chain inside `generate_license` for the
`duration_days is None` call: an explicit override, else the predefined-key
table entry (first case-insensitive match, in table order), else the duration
embedded in a successfully analyzed generated key, else the type default. -/
def resolve_duration (license_key : String) (default_days : Int)
    (duration_days : Option Int) : Int :=
  match duration_days with
  | some d => d
  | none =>
    if predefined_keys.any (fun p => pyUpper p.1 == pyUpper license_key) then
      match predefined_keys.find? (fun p => pyUpper p.1 == pyUpper license_key) with
      | some p => p.2.2
      | none => default_days
    else
      match analyze_generated_key license_key with
      | some a => a.duration_days
      | none => default_days

/-- Model of `LicenseManager.generate_license`.  `encrypt` stands for the
Fernet encryption `_encrypt_license_key` (whatever string one call of it
returned), `isoRender` for `datetime.isoformat`, `now` for the clock in
seconds; a day is 86400 seconds.  `none` models the `ValueError` on an
unsupported type. -/
def generate_license (hmacHex : String → String) (isoRender : Int → String)
    (encrypt : String → String) (machine_id : String) (now : Int)
    (license_key license_type : String) (duration_days : Option Int) : Option LicenseData :=
  match LICENSE_TYPES.find? (fun t => t.1 == license_type) with
  | none => none
  | some t =>
    let d := resolve_duration license_key t.2.1 duration_days
    let expiry := if 0 < d then ExpiryVal.date (now + d * 86400) else ExpiryVal.unlimited
    let base : LicenseData :=
      { license_key := encrypt license_key, machine_id := machine_id,
        license_type := license_type, issued_date := isoRender now,
        expiry_date := expiry, features := t.2.2, version := "2.1.0", signature := "" }
    some { base with signature := generate_license_signature hmacHex isoRender base }

/-- Model of `LicenseManager.load_license`: a missing file is `none`, and a
`json.load` failure is caught and also yields `none`; `decodeJson` is the
JSON decoding of the file text, `none` on its raised exceptions. -/
def load_license (fileContent : Option String)
    (decodeJson : String → Option LicenseData) : Option LicenseData :=
  match fileContent with
  | none => none
  | some s => decodeJson s

/-- Model of `LicenseManager.validate_license`.  `license_data` is the
optional argument, `stored` what `load_license` would return, `fmtDate` the
`strftime('%d/%m/%Y')` rendering used in the expiry message. -/
def validate_license (hmacHex : String → String) (isoRender fmtDate : Int → String)
    (machine_id : String) (now : Int)
    (license_data : Option LicenseData) (stored : Option LicenseData) : Bool × String :=
  match (match license_data with | some d => some d | none => stored) with
  | none => (false, "Nessuna licenza trovata")
  | some d =>
    if verify_license_signature hmacHex isoRender d then
      if d.machine_id ≠ machine_id then (false, "Licenza non valida per questa macchina")
      else
        let typeStep : Bool × String :=
          if LICENSE_TYPES.any (fun t => t.1 == d.license_type) then (true, "Licenza valida")
          else (false, "Tipo di licenza non riconosciuto")
        match d.expiry_date with
        | ExpiryVal.unlimited => typeStep
        | ExpiryVal.date t =>
          if now > t then (false, "Licenza scaduta il " ++ fmtDate t) else typeStep
        | ExpiryVal.bad _ => (false, "Data di scadenza non valida")
    else (false, "Licenza non valida o manomessa")

end LM

namespace SDK

/-- The payload fields `validate_offline` reads, with `expires_at` as the
parsed UTC instant in seconds (`none` for an absent or empty field, on which
the `if expires_at:` test is falsy). -/
structure ReceiptPayload where
  device_id_hash : Option String
  expires_at : Option Int
  grace_period_days : Option Int
deriving DecidableEq

/-- Mirror of the `ReceiptValidationResult` dataclass; `expires_at` echoes
the payload instant. -/
structure ReceiptValidationResult where
  valid : Bool
  reason : Option String
  expires_at : Option Int
  grace_period_days : Option Int
deriving DecidableEq

/-- Tags of the `ReceiptError` exceptions `parse` raises. -/
inductive ReceiptErr where
  | invalid_receipt_format : ReceiptErr
  | invalid_receipt_payload : ReceiptErr
deriving DecidableEq

/-- Model of `ReceiptVerifier.parse`: split on `.`, require exactly 3 parts
with the first equal to `"v1"`, then decode the middle part.  `decodePayload`
bundles base64url decoding, UTF-8 decoding and `json.loads`; `none` is any
exception of that `try` block. -/
def parse (decodePayload : String → Option ReceiptPayload) (token : String) :
    Except ReceiptErr ReceiptPayload :=
  match pySplit '.' token with
  | [v, payload, _sig] =>
    if v == "v1" then
      match decodePayload payload with
      | some p => Except.ok p
      | none => Except.error ReceiptErr.invalid_receipt_payload
    else Except.error ReceiptErr.invalid_receipt_format
  | _ => Except.error ReceiptErr.invalid_receipt_format

/-- Body of `ReceiptVerifier.validate_offline` after its `parse` call
succeeded.  `sigOk` is the boolean `verify_signature` would return for this
token, `now` the clock in seconds, and a day is 86400 seconds. -/
def validate_offline_checked (payload : ReceiptPayload) (device_id : String)
    (now : Int) (verify_signature sigOk : Bool) : ReceiptValidationResult :=
  if verify_signature && !sigOk then
    { valid := false, reason := some "invalid_signature",
      expires_at := none, grace_period_days := none }
  else if payload.device_id_hash ≠ some (sha256hex device_id) then
    { valid := false, reason := some "device_mismatch",
      expires_at := none, grace_period_days := none }
  else
    let grace_days := payload.grace_period_days.getD 0
    match payload.expires_at with
    | some exp_dt =>
      if now > exp_dt then
        if now > exp_dt + grace_days * 86400 then
          { valid := false, reason := some "expired",
            expires_at := some exp_dt, grace_period_days := none }
        else
          { valid := true, reason := some "grace_period",
            expires_at := some exp_dt, grace_period_days := some grace_days }
      else
        { valid := true, reason := none,
          expires_at := some exp_dt, grace_period_days := some grace_days }
    | none =>
      { valid := true, reason := none,
        expires_at := none, grace_period_days := some grace_days }

/-- Mirror of the persisted `ReceiptRecord` dataclass. -/
structure ReceiptRecord where
  receipt : String
  device_id : String
  activation_id : Option String
  project_id : Option String
deriving DecidableEq

/-- Faults a Python call can raise out of the modeled SDK functions. -/
inductive PyFault where
  | uncaughtDecode : PyFault
  | unboundLocal : PyFault
  | http : Nat → String → PyFault
deriving DecidableEq

/-- Model of `FileStorage.load_receipt`: a missing file is `.ok none`, but
there is no exception handler, so a file whose content does not decode
(`json.loads` raising, or a required key missing) raises out of the call;
`decodeJson` is that decoding, `none` on its exceptions. -/
def load_receipt (fileContent : Option String)
    (decodeJson : String → Option ReceiptRecord) : Except PyFault (Option ReceiptRecord) :=
  match fileContent with
  | none => Except.ok none
  | some s =>
    match decodeJson s with
    | none => Except.error PyFault.uncaughtDecode
    | some r => Except.ok (some r)

/-- Model of `AlureClient.verify_online`, abstracted over the transport: the
server call is assumed to succeed and `newReceipt` is `data.get("new_receipt")`
of its response; `extractPid` is `_extract_project_id`.  The returned value is
the record passed to `storage.save_receipt`, `none` when nothing is saved.
In Python, `stored` is a local assigned only inside the
`if receipt is None or device_id is None:` branch, so when both arguments are
given and a new receipt arrives, evaluating
`stored.activation_id if stored else None` raises `UnboundLocalError`. -/
def verify_online (storageState : Option ReceiptRecord)
    (receiptArg deviceArg : Option String) (newReceipt : Option String)
    (extractPid : String → Option String) : Except PyFault (Option ReceiptRecord) :=
  match receiptArg, deviceArg with
  | some _, some _ =>
    match newReceipt with
    | some _ => Except.error PyFault.unboundLocal
    | none => Except.ok none
  | _, da =>
    match storageState with
    | none => Except.error (PyFault.http 400 "missing_receipt")
    | some stored =>
      let dvc := da.getD stored.device_id
      match newReceipt with
      | some nr =>
        Except.ok (some { receipt := nr, device_id := dvc,
                          activation_id := stored.activation_id,
                          project_id := extractPid nr })
      | none => Except.ok none

end SDK

/-- ASCII letters and digits: the customer-code characters for which Python
`upper()` agrees with `upChar` and lands in the `[A-Z0-9]` class. -/
def isAsciiAlnum (c : Char) : Bool :=
  (decide (65 ≤ c.toNat) && decide (c.toNat ≤ 90)) ||
  (decide (97 ≤ c.toNat) && decide (c.toNat ≤ 122)) ||
  (decide (48 ≤ c.toNat) && decide (c.toNat ≤ 57))

/-- Claim C5's second half as stated: for a key accepted by
`validate_generated_key`, changing exactly one character while keeping the
length and the final (checksum) dash-segment unchanged always makes
`validate_generated_key` reject. -/
def checksumFlipClaim : Prop :=
  ∀ k k' : String, KeyGen.validate_generated_key k = true →
    k'.data.length = k.data.length → countDiff k'.data k.data = 1 →
    (pySplit '-' k').getLast? = (pySplit '-' k).getLast? →
    KeyGen.validate_generated_key k' = false

/-!
Helper lemmas about the string model.
-/

/-- Rebuilding a string from its characters is the identity. -/
theorem mk_data (s : String) : String.mk s.data = s := rfl

/-- Unequal character counts rule out string equality at the `BEq` level. -/
theorem beq_false_of_length_ne {a b : String} (h : a.data.length ≠ b.data.length) :
    (a == b) = false := by
  rcases hab : a == b with _ | _
  · rfl
  · exact absurd (congrArg (fun s => s.data.length) (eq_of_beq hab)) h

/-- Characters are distinct whenever their code points are. -/
theorem char_ne_of_toNat_ne {a b : Char} (h : a.toNat ≠ b.toNat) : a ≠ b :=
  fun e => h (congrArg Char.toNat e)

/-- Code point of `Char.ofNat` on the valid low range. -/
theorem toNat_ofNat_of_lt {n : Nat} (h : n < 55296) : (Char.ofNat n).toNat = n := by
  rw [Char.ofNat, dif_pos (Or.inl h)]
  rfl

/-- Splitting never returns an empty list of pieces. -/
theorem splitChar_ne_nil (sep : Char) (l : List Char) : splitChar sep l ≠ [] := by
  cases l with
  | nil => simp [splitChar]
  | cons c cs =>
    by_cases hc : c = sep <;> simp [splitChar, hc]

/-- A separator-free list is a single piece. -/
theorem splitChar_of_not_mem {sep : Char} {a : List Char} (h : sep ∉ a) :
    splitChar sep a = [a] := by
  induction a with
  | nil => rfl
  | cons c cs ih =>
    have hc : ¬ c = sep := fun e => h (e ▸ List.mem_cons_self c cs)
    have hcs : sep ∉ cs := fun m => h (List.mem_cons_of_mem _ m)
    simp [splitChar, hc, ih hcs]

/-- Peeling one separator-free piece off the front of a split. -/
theorem splitChar_append {sep : Char} {a : List Char} (h : sep ∉ a) (l : List Char) :
    splitChar sep (a ++ sep :: l) = a :: splitChar sep l := by
  induction a with
  | nil => simp [splitChar]
  | cons c cs ih =>
    have hc : ¬ c = sep := fun e => h (e ▸ List.mem_cons_self c cs)
    have hcs : sep ∉ cs := fun m => h (List.mem_cons_of_mem _ m)
    simp [splitChar, hc, ih hcs]

/-- Number of split pieces is the separator count plus one. -/
theorem length_splitChar (sep : Char) (l : List Char) :
    (splitChar sep l).length = l.count sep + 1 := by
  induction l with
  | nil => rfl
  | cons c cs ih =>
    by_cases hc : c = sep
    · simp [splitChar, hc, ih, List.count_cons]
    · simp [splitChar, hc, ih, List.count_cons]

/-- The character data of a five-part dash join. -/
theorem dashJoin5_data (p1 p2 p3 p4 p5 : String) :
    (dashJoin [p1, p2, p3, p4, p5]).data
      = p1.data ++ '-' :: (p2.data ++ '-' :: (p3.data ++ '-' :: (p4.data ++ '-' :: p5.data))) := by
  simp [dashJoin, String.data_append, List.append_assoc]

/-- Splitting a five-part dash join with dash-free pieces recovers the pieces. -/
theorem pySplit_dashJoin5 {p1 p2 p3 p4 p5 : String}
    (h1 : '-' ∉ p1.data) (h2 : '-' ∉ p2.data) (h3 : '-' ∉ p3.data)
    (h4 : '-' ∉ p4.data) (h5 : '-' ∉ p5.data) :
    pySplit '-' (dashJoin [p1, p2, p3, p4, p5]) = [p1, p2, p3, p4, p5] := by
  rw [pySplit, dashJoin5_data, splitChar_append h1, splitChar_append h2, splitChar_append h3,
    splitChar_append h4, splitChar_of_not_mem h5]
  simp [mk_data]

/-- A list maps to itself when the function fixes each member. -/
theorem map_id_of_mem {f : Char → Char} {l : List Char} (h : ∀ c ∈ l, f c = c) :
    l.map f = l := by
  induction l with
  | nil => rfl
  | cons c cs ih =>
    simp [h c (List.mem_cons_self c cs), ih (fun x hx => h x (List.mem_cons_of_mem _ hx))]

/-- Identical lists differ in no position. -/
theorem countDiff_self (l : List Char) : countDiff l l = 0 := by
  induction l with
  | nil => rfl
  | cons c cs ih => simp [countDiff, ih]

/-- Characters outside the lowercase range are fixed by `upChar`. -/
theorem upChar_of_not_lower {c : Char} (h : ¬ (97 ≤ c.toNat ∧ c.toNat ≤ 122)) :
    upChar c = c := by
  simp [upChar, h]

/-- Characters already in the `[A-Z0-9]` class are fixed by `upChar`. -/
theorem upChar_of_alnumAZ09 {c : Char} (h : isAlnumAZ09 c = true) : upChar c = c := by
  simp [isAlnumAZ09, isUpperAZ, isDigit09] at h
  exact upChar_of_not_lower (by omega)

/-- Upper-casing an ASCII letter or digit lands in `[A-Z0-9]`, is idempotent,
and never produces a dash. -/
theorem upChar_of_asciiAlnum {c : Char} (h : isAsciiAlnum c = true) :
    isAlnumAZ09 (upChar c) = true ∧ upChar (upChar c) = upChar c ∧ upChar c ≠ '-' := by
  simp [isAsciiAlnum] at h
  rcases h with (h | h) | h
  · rw [upChar_of_not_lower (by omega)]
    refine ⟨by simp [isAlnumAZ09, isUpperAZ]; omega, upChar_of_not_lower (by omega), ?_⟩
    exact char_ne_of_toNat_ne (by rw [show ('-').toNat = 45 from rfl]; omega)
  · have hup : upChar c = Char.ofNat (c.toNat - 32) := by simp [upChar, h.1, h.2]
    have hto : (upChar c).toNat = c.toNat - 32 := by rw [hup, toNat_ofNat_of_lt (by omega)]
    refine ⟨by simp [isAlnumAZ09, isUpperAZ, hto]; omega, upChar_of_not_lower (by omega), ?_⟩
    exact char_ne_of_toNat_ne (by rw [hto, show ('-').toNat = 45 from rfl]; omega)
  · rw [upChar_of_not_lower (by omega)]
    refine ⟨by simp [isAlnumAZ09, isDigit09]; omega, upChar_of_not_lower (by omega), ?_⟩
    exact char_ne_of_toNat_ne (by rw [show ('-').toNat = 45 from rfl]; omega)

/-- Facts about every character of the secure-segment alphabet. -/
theorem secureChars_facts :
    ∀ c ∈ KeyGen.secureChars, isAlnumAZ09 c = true ∧ upChar c = c ∧ c ≠ '-' := by
  decide

/-- Digits are alphanumeric, upper-stable, and not dashes. -/
theorem digit_facts {c : Char} (h : isDigit09 c = true) :
    isAlnumAZ09 c = true ∧ upChar c = c ∧ c ≠ '-' := by
  simp [isDigit09] at h
  refine ⟨by simp [isAlnumAZ09, isDigit09]; omega, upChar_of_not_lower (by omega), ?_⟩
  exact char_ne_of_toNat_ne (by rw [show ('-').toNat = 45 from rfl]; omega)

/-- A hex digit is drawn from the sixteen lowercase hex characters. -/
theorem hexDigit_mem (n : Nat) : Sha256.hexDigit n ∈ Sha256.hexDigitChars := by
  have h : ∀ k, k < 16 → Sha256.hexDigitChars.getD k '0' ∈ Sha256.hexDigitChars := by decide
  exact h (n % 16) (Nat.mod_lt _ (by omega))

/-- Every character of a word's hex rendering is a hex character. -/
theorem wordHex_mem (w : Nat) : ∀ c ∈ Sha256.wordHex w, c ∈ Sha256.hexDigitChars := by
  intro c hc
  simp [Sha256.wordHex] at hc
  rcases hc with rfl | rfl | rfl | rfl | rfl | rfl | rfl | rfl <;> exact hexDigit_mem _

/-- Every character of a hex digest is a hex character. -/
theorem hexdigestBytes_mem (m : List Nat) :
    ∀ c ∈ Sha256.hexdigestBytes m, c ∈ Sha256.hexDigitChars := by
  intro c hc
  simp only [Sha256.hexdigestBytes, List.flatMap_cons, List.flatMap_nil, List.append_nil,
    List.mem_append] at hc
  rcases hc with hc | hc | hc | hc | hc | hc | hc | hc <;> exact wordHex_mem _ _ hc

/-- A hex digest has exactly 64 characters. -/
theorem hexdigestBytes_length (m : List Nat) : (Sha256.hexdigestBytes m).length = 64 := by
  simp [Sha256.hexdigestBytes, Sha256.wordHex]

/-- Facts about a lowercase hex character after upper-casing. -/
theorem hexChar_up_facts :
    ∀ c ∈ Sha256.hexDigitChars,
      isAlnumAZ09 (upChar c) = true ∧ upChar (upChar c) = upChar c ∧ upChar c ≠ '-' := by
  decide

/-- The generated checksum has four characters, all in `[A-Z0-9]`,
upper-stable and dash-free. -/
theorem generate_checksum_facts (parts : List String) :
    (KeyGen.generate_checksum parts).data.length = 4 ∧
    ∀ c ∈ (KeyGen.generate_checksum parts).data,
      isAlnumAZ09 c = true ∧ upChar c = c ∧ c ≠ '-' := by
  constructor
  · have hl := hexdigestBytes_length (strBytes (String.join parts))
    simp [KeyGen.generate_checksum, pyUpper, pyTake, sha256hex, hl]
  · intro c hc
    simp only [KeyGen.generate_checksum, pyUpper, pyTake, sha256hex, List.mem_map] at hc
    obtain ⟨x, hx, rfl⟩ := hc
    have hxm : x ∈ Sha256.hexdigestBytes (strBytes (String.join parts)) :=
      List.mem_of_mem_take hx
    obtain ⟨h1, h2, h3⟩ := hexChar_up_facts x (hexdigestBytes_mem _ _ hxm)
    exact ⟨h1, h2, h3⟩

/-- The customer segment built from an ASCII alphanumeric code has four
characters, all in `[A-Z0-9]`, upper-stable and dash-free. -/
theorem customer_segment_facts {c : String} (h : ∀ ch ∈ c.data, isAsciiAlnum ch = true) :
    (ljust 4 'X' (pyUpper (pyTake 4 c))).data.length = 4 ∧
    ∀ ch ∈ (ljust 4 'X' (pyUpper (pyTake 4 c))).data,
      isAlnumAZ09 ch = true ∧ upChar ch = ch ∧ ch ≠ '-' := by
  constructor
  · simp [ljust, pyUpper, pyTake]
  · intro ch hch
    simp only [ljust, pyUpper, pyTake, mk_data] at hch
    rcases List.mem_append.mp hch with hin | hin
    · obtain ⟨x, hx, rfl⟩ := List.mem_map.mp hin
      exact upChar_of_asciiAlnum (h x (List.mem_of_mem_take hx))
    · rw [List.eq_of_mem_replicate hin]
      exact ⟨by decide, by decide, by decide⟩

/-!
Sanity checks of the SHA-256 embedding against published test vectors, and
the claim theorems.
-/

/-- Sanity check against the FIPS 180-4 test vector for "abc". -/
theorem sha256hex_abc :
    sha256hex "abc" = "ba7816bf8f01cfea414140de5dae2223b00361a396177a9cb410ff61f20015ad" := by
  decide

/-- Sanity check against the SHA-256 digest of the empty string. -/
theorem sha256hex_empty :
    sha256hex "" = "e3b0c44298fc1c149afbf4c8996fb92427ae41e4649b934ca495991b7852b855" := by
  decide

/-- C5, counterexample: claim C5's second half fails on the code.  The key
`VS24-2510-TEST-AABJT-6D0F` is accepted by `validate_generated_key`, and so
is `VS24-2510-TEST-AABJ8-6D0F`, obtained from it by changing the single
character `T` of the random segment to `8` while leaving the checksum
segment `6D0F` unchanged — the two bodies collide on the first four hex
characters of their SHA-256. -/
theorem C5_flip_counterexample : ¬ checksumFlipClaim := fun hcl =>
  absurd
    (hcl "VS24-2510-TEST-AABJT-6D0F" "VS24-2510-TEST-AABJ8-6D0F"
      (by decide) (by decide) (by decide) (by decide))
    (by decide)

/-- C5, amended: changing any single character of the checksum segment of a
well-formed key always makes `validate_generated_key` reject; changing a
single character in one of the other four segments (keeping the checksum
segment) makes it reject exactly when the recomputed checksum of the
modified body differs from the stored one — a 16-bit collision can defeat
the check, as the counterexample shows. -/
theorem C5_checksum_sensitivity :
    (∀ p1 p2 p3 p4 c' : String,
      '-' ∉ p1.data → '-' ∉ p2.data → '-' ∉ p3.data → '-' ∉ p4.data →
      c'.data.length = (KeyGen.generate_checksum [p1, p2, p3, p4]).data.length →
      countDiff c'.data (KeyGen.generate_checksum [p1, p2, p3, p4]).data = 1 →
      KeyGen.validate_generated_key (dashJoin [p1, p2, p3, p4, c']) = false) ∧
    (∀ p1 p2 p3 p4 q1 q2 q3 q4 : String,
      '-' ∉ p1.data → '-' ∉ p2.data → '-' ∉ p3.data → '-' ∉ p4.data →
      '-' ∉ q1.data → '-' ∉ q2.data → '-' ∉ q3.data → '-' ∉ q4.data →
      countDiff (q1.data ++ q2.data ++ q3.data ++ q4.data)
        (p1.data ++ p2.data ++ p3.data ++ p4.data) = 1 →
      (KeyGen.validate_generated_key
          (dashJoin [q1, q2, q3, q4, KeyGen.generate_checksum [p1, p2, p3, p4]]) = true
        ↔ KeyGen.generate_checksum [q1, q2, q3, q4]
            = KeyGen.generate_checksum [p1, p2, p3, p4])) := by
  constructor
  · intro p1 p2 p3 p4 c' h1 h2 h3 h4 hlen hdiff
    have hcne : c' ≠ KeyGen.generate_checksum [p1, p2, p3, p4] := by
      intro e
      rw [e, countDiff_self] at hdiff
      exact absurd hdiff (by omega)
    by_cases hmem : '-' ∈ c'.data
    · cases hsc : splitChar '-' c'.data with
      | nil => exact absurd hsc (splitChar_ne_nil _ _)
      | cons x t =>
        cases t with
        | nil =>
          have hlenp := length_splitChar '-' c'.data
          rw [hsc] at hlenp
          have hz : c'.data.count '-' = 0 := by simpa using hlenp.symm
          exact absurd (List.count_eq_zero.mp hz) (fun hn => hn hmem)
        | cons y t2 =>
          unfold KeyGen.validate_generated_key
          rw [pySplit, dashJoin5_data, splitChar_append h1, splitChar_append h2,
            splitChar_append h3, splitChar_append h4, hsc]
          rfl
    · unfold KeyGen.validate_generated_key
      rw [pySplit_dashJoin5 h1 h2 h3 h4 hmem]
      simpa using hcne
  · intro p1 p2 p3 p4 q1 q2 q3 q4 hp1 hp2 hp3 hp4 hq1 hq2 hq3 hq4 hdiff
    have hnc : '-' ∉ (KeyGen.generate_checksum [p1, p2, p3, p4]).data :=
      fun hm => ((generate_checksum_facts [p1, p2, p3, p4]).2 _ hm).2.2 rfl
    unfold KeyGen.validate_generated_key
    rw [pySplit_dashJoin5 hq1 hq2 hq3 hq4 hnc]
    rw [show (match [q1, q2, q3, q4, KeyGen.generate_checksum [p1, p2, p3, p4]] with
      | [pfx, ts, cs, rs, provided] => provided == KeyGen.generate_checksum [pfx, ts, cs, rs]
      | _ => false)
      = (KeyGen.generate_checksum [p1, p2, p3, p4] == KeyGen.generate_checksum [q1, q2, q3, q4])
      from rfl]
    rw [beq_iff_eq]
    exact eq_comm

/-- Dash-freeness of a segment whose characters all satisfy the collected
segment facts. -/
theorem not_dash_of_facts {s : String}
    (h : ∀ c ∈ s.data, isAlnumAZ09 c = true ∧ upChar c = c ∧ c ≠ '-') :
    '-' ∉ s.data :=
  fun hm => (h _ hm).2.2 rfl

/-- Core facts about a freshly assembled generated key, for any first segment
drawn from the `type_mapping` table and well-formed remaining segments: the
key splits back into its five segments, its own upper-casing fixes it, the
predefined-key lookup misses it, the generated-key analysis accepts it, the
checksum check passes, and `_determine_license_type` returns the mapped type. -/
theorem generatedKey_core
    (pfx T : String) (dur : Int) (ts cseg rs : String)
    (hpfx_data4 : pfx.data.length = 4)
    (hpfx_cls1 : (pfx.data.take 2).all isUpperAZ = true)
    (hpfx_cls2 : (pfx.data.drop 2).all isDigit09 = true)
    (hpfx_facts : ∀ c ∈ pfx.data, upChar c = c ∧ c ≠ '-')
    (hmap : LM.type_mapping.find? (fun m => m.1 == pfx) = some (pfx, (T, dur)))
    (hts4 : ts.data.length = 4) (htsd : ∀ c ∈ ts.data, isDigit09 c = true)
    (hcs4 : cseg.data.length = 4)
    (hcsf : ∀ c ∈ cseg.data, isAlnumAZ09 c = true ∧ upChar c = c ∧ c ≠ '-')
    (hrs5 : rs.data.length = 5)
    (hrsf : ∀ c ∈ rs.data, isAlnumAZ09 c = true ∧ upChar c = c ∧ c ≠ '-') :
    pySplit '-' (dashJoin [pfx, ts, cseg, rs, KeyGen.generate_checksum [pfx, ts, cseg, rs]])
        = [pfx, ts, cseg, rs, KeyGen.generate_checksum [pfx, ts, cseg, rs]] ∧
    KeyGen.validate_generated_key
        (dashJoin [pfx, ts, cseg, rs, KeyGen.generate_checksum [pfx, ts, cseg, rs]]) = true ∧
    LM.determine_license_type
        (dashJoin [pfx, ts, cseg, rs, KeyGen.generate_checksum [pfx, ts, cseg, rs]]) = some T := by
  have hckf := generate_checksum_facts [pfx, ts, cseg, rs]
  have hp1 : '-' ∉ pfx.data := fun hm => (hpfx_facts _ hm).2 rfl
  have hp2 : '-' ∉ ts.data := fun hm => (digit_facts (htsd _ hm)).2.2 rfl
  have hp3 : '-' ∉ cseg.data := not_dash_of_facts hcsf
  have hp4 : '-' ∉ rs.data := not_dash_of_facts hrsf
  have hp5 : '-' ∉ (KeyGen.generate_checksum [pfx, ts, cseg, rs]).data :=
    not_dash_of_facts hckf.2
  have hsplit := pySplit_dashJoin5 hp1 hp2 hp3 hp4 hp5
  have hmapeq :
      (dashJoin [pfx, ts, cseg, rs, KeyGen.generate_checksum [pfx, ts, cseg, rs]]).data.map upChar
        = (dashJoin [pfx, ts, cseg, rs, KeyGen.generate_checksum [pfx, ts, cseg, rs]]).data := by
    rw [dashJoin5_data]
    simp only [List.map_append, List.map_cons]
    rw [map_id_of_mem (fun c hc => (hpfx_facts c hc).1),
      map_id_of_mem (fun c hc => (digit_facts (htsd c hc)).2.1),
      map_id_of_mem (fun c hc => (hcsf c hc).2.1),
      map_id_of_mem (fun c hc => (hrsf c hc).2.1),
      map_id_of_mem (fun c hc => (hckf.2 c hc).2.1),
      show upChar '-' = '-' from by decide]
  have hupper :
      pyUpper (dashJoin [pfx, ts, cseg, rs, KeyGen.generate_checksum [pfx, ts, cseg, rs]])
        = dashJoin [pfx, ts, cseg, rs, KeyGen.generate_checksum [pfx, ts, cseg, rs]] := by
    unfold pyUpper
    rw [hmapeq]
  have hvalid : KeyGen.validate_generated_key
      (dashJoin [pfx, ts, cseg, rs, KeyGen.generate_checksum [pfx, ts, cseg, rs]]) = true := by
    unfold KeyGen.validate_generated_key
    rw [hsplit]
    exact beq_self_eq_true _
  have hklen :
      (dashJoin [pfx, ts, cseg, rs, KeyGen.generate_checksum [pfx, ts, cseg, rs]]).data.length
        = 25 := by
    rw [dashJoin5_data]
    simp [hpfx_data4, hts4, hcs4, hrs5, hckf.1]
  have hpre : ∀ pk ∈ LM.predefined_keys, (pyUpper pk.1).data.length ≠ 25 := by decide
  have hpredef : LM.predefined_keys.find?
      (fun p => pyUpper p.1
        == dashJoin [pfx, ts, cseg, rs, KeyGen.generate_checksum [pfx, ts, cseg, rs]]) = none := by
    apply List.find?_eq_none.mpr
    intro pk hpk hb
    have hlen : (pyUpper pk.1).data.length
        = (dashJoin [pfx, ts, cseg, rs, KeyGen.generate_checksum [pfx, ts, cseg, rs]]).data.length := by
      rw [eq_of_beq hb]
    rw [hklen] at hlen
    exact hpre pk hpk hlen
  have hverify : LM.verify_generated_key_checksum
      (dashJoin [pfx, ts, cseg, rs, KeyGen.generate_checksum [pfx, ts, cseg, rs]]) = true := by
    unfold LM.verify_generated_key_checksum
    rw [hsplit]
    simp [KeyGen.generate_checksum]
  have hfmt : LM.matchesGeneratedFormat pfx.data ts.data cseg.data rs.data
      (KeyGen.generate_checksum [pfx, ts, cseg, rs]).data = true := by
    have ha1 : ts.data.all isDigit09 = true := List.all_eq_true.mpr htsd
    have ha2 : cseg.data.all isAlnumAZ09 = true :=
      List.all_eq_true.mpr (fun c hc => (hcsf c hc).1)
    have ha3 : rs.data.all isAlnumAZ09 = true :=
      List.all_eq_true.mpr (fun c hc => (hrsf c hc).1)
    have ha4 : (KeyGen.generate_checksum [pfx, ts, cseg, rs]).data.all isAlnumAZ09 = true :=
      List.all_eq_true.mpr (fun c hc => (hckf.2 c hc).1)
    simp [LM.matchesGeneratedFormat, hpfx_data4, hts4, hcs4, hrs5, hckf.1,
      hpfx_cls1, hpfx_cls2, ha1, ha2, ha3, ha4]
  have hanalyze : LM.analyze_generated_key
      (dashJoin [pfx, ts, cseg, rs, KeyGen.generate_checksum [pfx, ts, cseg, rs]])
        = some ⟨T, dur⟩ := by
    simp only [LM.analyze_generated_key, hupper, hsplit, hfmt, hmap, hverify, if_true]
  refine ⟨hsplit, hvalid, ?_⟩
  simp only [LM.determine_license_type, hupper, hpredef, hanalyze]

/-- The four claim C2 conclusions for an assembled generated key. -/
theorem C2_assemble
    (pfx T : String) (dur : Int) (ts cseg rs : String)
    (hpfx_data4 : pfx.data.length = 4)
    (hpfx_cls1 : (pfx.data.take 2).all isUpperAZ = true)
    (hpfx_cls2 : (pfx.data.drop 2).all isDigit09 = true)
    (hpfx_facts : ∀ c ∈ pfx.data, upChar c = c ∧ c ≠ '-')
    (hmap : LM.type_mapping.find? (fun m => m.1 == pfx) = some (pfx, (T, dur)))
    (hts4 : ts.data.length = 4) (htsd : ∀ c ∈ ts.data, isDigit09 c = true)
    (hcs4 : cseg.data.length = 4)
    (hcsf : ∀ c ∈ cseg.data, isAlnumAZ09 c = true ∧ upChar c = c ∧ c ≠ '-')
    (hrs5 : rs.data.length = 5)
    (hrsf : ∀ c ∈ rs.data, isAlnumAZ09 c = true ∧ upChar c = c ∧ c ≠ '-')
    (k : String)
    (hk : k = dashJoin [pfx, ts, cseg, rs, KeyGen.generate_checksum [pfx, ts, cseg, rs]]) :
    (pySplit '-' k).length = 5 ∧
    (∀ p1 p2 p3 p4 p5, pySplit '-' k = [p1, p2, p3, p4, p5] →
      p5 = pyUpper (pyTake 4 (sha256hex (p1 ++ p2 ++ p3 ++ p4)))) ∧
    KeyGen.validate_generated_key k = true ∧
    LM.determine_license_type k = some T := by
  subst hk
  obtain ⟨hsplit, hvalid, hdet⟩ :=
    generatedKey_core pfx T dur ts cseg rs hpfx_data4 hpfx_cls1 hpfx_cls2 hpfx_facts hmap
      hts4 htsd hcs4 hcsf hrs5 hrsf
  refine ⟨by rw [hsplit]; rfl, ?_, hvalid, hdet⟩
  intro p1 p2 p3 p4 p5 heq
  rw [hsplit] at heq
  injection heq with e1 heq; injection heq with e2 heq; injection heq with e3 heq
  injection heq with e4 heq; injection heq with e5 _
  subst e1; subst e2; subst e3; subst e4; subst e5
  rfl

/-- Character facts for the four-character customer segment, whichever branch
of `customerSeg` produced it. -/
theorem customerSeg_facts (rand4 : String)
    (h44 : rand4.data.length = 4) (h4 : ∀ c ∈ rand4.data, c ∈ KeyGen.secureChars)
    (cc : Option String)
    (hcc : ∀ s, cc = some s → ∀ ch ∈ s.data, isAsciiAlnum ch = true) :
    (KeyGen.customerSeg rand4 cc).data.length = 4 ∧
    ∀ c ∈ (KeyGen.customerSeg rand4 cc).data,
      isAlnumAZ09 c = true ∧ upChar c = c ∧ c ≠ '-' := by
  have hrnd : rand4.data.length = 4 ∧
      ∀ c ∈ rand4.data, isAlnumAZ09 c = true ∧ upChar c = c ∧ c ≠ '-' :=
    ⟨h44, fun c hc => secureChars_facts c (h4 c hc)⟩
  cases cc with
  | none => exact hrnd
  | some c =>
    by_cases hz : c.data.length ≠ 0
    · rw [show KeyGen.customerSeg rand4 (some c) = ljust 4 'X' (pyUpper (pyTake 4 c)) from by
        show (if c.data.length ≠ 0 then ljust 4 'X' (pyUpper (pyTake 4 c)) else rand4)
            = ljust 4 'X' (pyUpper (pyTake 4 c))
        rw [if_pos hz]]
      exact customer_segment_facts (hcc c rfl)
    · rw [show KeyGen.customerSeg rand4 (some c) = rand4 from by
        show (if c.data.length ≠ 0 then ljust 4 'X' (pyUpper (pyTake 4 c)) else rand4) = rand4
        rw [if_neg hz]]
      exact hrnd

/-- C2, counterexample: the claim fails as stated for the customer code `-`
(a single character, hence within the claim's quantification).  The resulting
key has six dash-separated segments, `validate_generated_key` rejects it, and
`_determine_license_type` cannot infer the requested type `TRIAL`. -/
theorem C2_counterexample :
    KeyGen.generate_license_key "TRIAL" "2510" "QQQQ" "ABCDE" (some "-")
      = some "VT25-2510--XXX-ABCDE-666B" ∧
    (pySplit '-' "VT25-2510--XXX-ABCDE-666B").length ≠ 5 ∧
    KeyGen.validate_generated_key "VT25-2510--XXX-ABCDE-666B" = false ∧
    LM.determine_license_type "VT25-2510--XXX-ABCDE-666B" = none := by
  refine ⟨by decide, by decide, by decide, by decide⟩

/-- C2, amended: for every supported license type `T` and customer code of at
most 4 ASCII alphanumeric characters (or an omitted/empty one), the generated
key has exactly five dash-separated segments, its fifth segment is the first
4 hex characters, upper-cased, of SHA-256 over the concatenation of the first
four, `validate_generated_key` accepts it, and `_determine_license_type`
infers `T`.  The time segment is the generator's 4-digit `%y%m` clock read
and the random draws come from the secure alphabet. -/
theorem C2_generated_key_valid
    (T : String) (hT : T ∈ KeyGen.LICENSE_PREFIXES.map (fun p => p.1))
    (ts rand4 rand5 : String)
    (hts4 : ts.data.length = 4) (htsd : ∀ c ∈ ts.data, isDigit09 c = true)
    (hr44 : rand4.data.length = 4) (hr4 : ∀ c ∈ rand4.data, c ∈ KeyGen.secureChars)
    (hr55 : rand5.data.length = 5) (hr5 : ∀ c ∈ rand5.data, c ∈ KeyGen.secureChars)
    (cc : Option String)
    (hcc : ∀ s, cc = some s → s.data.length ≤ 4 ∧ ∀ ch ∈ s.data, isAsciiAlnum ch = true)
    (k : String) (hk : KeyGen.generate_license_key T ts rand4 rand5 cc = some k) :
    (pySplit '-' k).length = 5 ∧
    (∀ p1 p2 p3 p4 p5, pySplit '-' k = [p1, p2, p3, p4, p5] →
      p5 = pyUpper (pyTake 4 (sha256hex (p1 ++ p2 ++ p3 ++ p4)))) ∧
    KeyGen.validate_generated_key k = true ∧
    LM.determine_license_type k = some T := by
  obtain ⟨hcs4, hcsf⟩ :=
    customerSeg_facts rand4 hr44 hr4 cc (fun s hs => (hcc s hs).2)
  have hrsf : ∀ c ∈ rand5.data, isAlnumAZ09 c = true ∧ upChar c = c ∧ c ≠ '-' :=
    fun c hc => secureChars_facts c (hr5 c hc)
  have hT' : T = "TRIAL" ∨ T = "STANDARD" ∨ T = "PROFESSIONAL" ∨ T = "ENTERPRISE" := by
    simpa [KeyGen.LICENSE_PREFIXES] using hT
  rcases hT' with rfl | rfl | rfl | rfl
  · rw [show KeyGen.generate_license_key "TRIAL" ts rand4 rand5 cc
        = some (dashJoin ["VT25", ts, KeyGen.customerSeg rand4 cc, rand5,
            KeyGen.generate_checksum ["VT25", ts, KeyGen.customerSeg rand4 cc, rand5]])
        from rfl] at hk
    exact C2_assemble "VT25" "TRIAL" 7 ts (KeyGen.customerSeg rand4 cc) rand5
      (by decide) (by decide) (by decide) (by decide) (by decide)
      hts4 htsd hcs4 hcsf hr55 hrsf k (Option.some.inj hk).symm
  · rw [show KeyGen.generate_license_key "STANDARD" ts rand4 rand5 cc
        = some (dashJoin ["VS24", ts, KeyGen.customerSeg rand4 cc, rand5,
            KeyGen.generate_checksum ["VS24", ts, KeyGen.customerSeg rand4 cc, rand5]])
        from rfl] at hk
    exact C2_assemble "VS24" "STANDARD" 365 ts (KeyGen.customerSeg rand4 cc) rand5
      (by decide) (by decide) (by decide) (by decide) (by decide)
      hts4 htsd hcs4 hcsf hr55 hrsf k (Option.some.inj hk).symm
  · rw [show KeyGen.generate_license_key "PROFESSIONAL" ts rand4 rand5 cc
        = some (dashJoin ["VP24", ts, KeyGen.customerSeg rand4 cc, rand5,
            KeyGen.generate_checksum ["VP24", ts, KeyGen.customerSeg rand4 cc, rand5]])
        from rfl] at hk
    exact C2_assemble "VP24" "PROFESSIONAL" 1095 ts (KeyGen.customerSeg rand4 cc) rand5
      (by decide) (by decide) (by decide) (by decide) (by decide)
      hts4 htsd hcs4 hcsf hr55 hrsf k (Option.some.inj hk).symm
  · rw [show KeyGen.generate_license_key "ENTERPRISE" ts rand4 rand5 cc
        = some (dashJoin ["VE25", ts, KeyGen.customerSeg rand4 cc, rand5,
            KeyGen.generate_checksum ["VE25", ts, KeyGen.customerSeg rand4 cc, rand5]])
        from rfl] at hk
    exact C2_assemble "VE25" "ENTERPRISE" 0 ts (KeyGen.customerSeg rand4 cc) rand5
      (by decide) (by decide) (by decide) (by decide) (by decide)
      hts4 htsd hcs4 hcsf hr55 hrsf k (Option.some.inj hk).symm

/-- C2, witness: the amended statement applied to the concrete generation of
a STANDARD key with customer code `AB` in month `2510`. -/
theorem C2_generated_key_valid_witness :
    KeyGen.generate_license_key "STANDARD" "2510" "QQQQ" "ABCDE" (some "AB")
      = some "VS24-2510-ABXX-ABCDE-1622" ∧
    KeyGen.validate_generated_key "VS24-2510-ABXX-ABCDE-1622" = true ∧
    LM.determine_license_type "VS24-2510-ABXX-ABCDE-1622" = some "STANDARD" :=
  ⟨by decide,
    (C2_generated_key_valid "STANDARD" (by decide) "2510" "QQQQ" "ABCDE"
      (by decide) (by decide) (by decide) (by decide) (by decide) (by decide)
      (some "AB") (fun s hs => by injection hs with e; subst e; exact ⟨by decide, by decide⟩)
      "VS24-2510-ABXX-ABCDE-1622" (by decide)).2.2.1,
    (C2_generated_key_valid "STANDARD" (by decide) "2510" "QQQQ" "ABCDE"
      (by decide) (by decide) (by decide) (by decide) (by decide) (by decide)
      (some "AB") (fun s hs => by injection hs with e; subst e; exact ⟨by decide, by decide⟩)
      "VS24-2510-ABXX-ABCDE-1622" (by decide)).2.2.2⟩

/-- Every duration the generated-key analysis can report is nonnegative. -/
theorem analyze_duration_nonneg {k : String} {a : LM.KeyAnalysis}
    (h : LM.analyze_generated_key k = some a) : 0 ≤ a.duration_days := by
  have tbl : ∀ m ∈ LM.type_mapping, (0 : Int) ≤ m.2.2 := by decide
  unfold LM.analyze_generated_key at h
  repeat split at h
  all_goals
    first
      | (injection h with e
         subst e
         exact tbl _ (List.mem_of_find?_eq_some (by assumption)))
      | exact Option.noConfusion h

/-- The duration resolved for a `duration_days=None` issuance is nonnegative
whenever the type default is. -/
theorem resolve_duration_none_nonneg (k : String) (dflt : Int) (hd : 0 ≤ dflt) :
    0 ≤ LM.resolve_duration k dflt none := by
  have tblp : ∀ p ∈ LM.predefined_keys, (0 : Int) ≤ p.2.2 := by decide
  show (0 : Int) ≤ (if LM.predefined_keys.any (fun p => pyUpper p.1 == pyUpper k) = true then
      (match LM.predefined_keys.find? (fun p => pyUpper p.1 == pyUpper k) with
       | some p => p.2.2
       | none => dflt : Int)
    else
      (match LM.analyze_generated_key k with
       | some a => a.duration_days
       | none => dflt : Int))
  split
  · split
    · next p heq => exact tblp _ (List.mem_of_find?_eq_some heq)
    · exact hd
  · split
    · next a heq => exact analyze_duration_nonneg heq
    · exact hd

/-- Every default duration in the supported type table is nonnegative. -/
theorem license_types_duration_nonneg :
    ∀ t ∈ LM.LICENSE_TYPES, (0 : Int) ≤ t.2.1 := by decide

/-- C1: issuing a record with `generate_license(key, T)` for a supported type
`T` and validating it immediately on the same machine with the same clock
yields `Valid` with the valid-license message. -/
theorem C1_issue_then_validate
    (hmacHex : String → String) (isoRender fmtDate : Int → String)
    (encrypt : String → String) (machine_id : String) (now : Int)
    (license_key license_type : String) (d : LM.LicenseData)
    (hgen : LM.generate_license hmacHex isoRender encrypt machine_id now
        license_key license_type none = some d)
    (stored : Option LM.LicenseData) :
    LM.validate_license hmacHex isoRender fmtDate machine_id now (some d) stored
      = (true, "Licenza valida") := by
  unfold LM.generate_license at hgen
  cases hf : LM.LICENSE_TYPES.find? (fun t => t.1 == license_type) with
  | none => rw [hf] at hgen; exact absurd hgen (by simp)
  | some t =>
    rw [hf] at hgen
    obtain rfl := Option.some.inj hgen
    have hnn : 0 ≤ LM.resolve_duration license_key t.2.1 none :=
      resolve_duration_none_nonneg _ _
        (license_types_duration_nonneg t (List.mem_of_find?_eq_some hf))
    have hp := List.find?_some hf
    have hany : LM.LICENSE_TYPES.any (fun x => x.1 == license_type) = true :=
      List.any_eq_true.mpr ⟨t, List.mem_of_find?_eq_some hf, hp⟩
    by_cases h0 : 0 < LM.resolve_duration license_key t.2.1 none
    · have hlt : ¬ now > now + LM.resolve_duration license_key t.2.1 none * 86400 := by
        omega
      simp [LM.validate_license, LM.verify_license_signature,
        LM.generate_license_signature, LM.signString, LM.expiryRender, h0, hlt, hany]
    · simp [LM.validate_license, LM.verify_license_signature,
        LM.generate_license_signature, LM.signString, LM.expiryRender, h0, hany]

/-- C1, witness: issuing and validating a concrete TRIAL record with the
identity in place of HMAC, Fernet and date rendering, at clock 0 on machine
`m`. -/
theorem C1_issue_then_validate_witness :
    LM.generate_license (fun s => s) (fun t => toString t) (fun s => s) "m" 0
        "KEY01" "TRIAL" none
      = some { license_key := "KEY01", machine_id := "m", license_type := "TRIAL",
               issued_date := "0", expiry_date := LM.ExpiryVal.date 2592000,
               features := ["basic"], version := "2.1.0",
               signature := "KEY01|m|TRIAL|0|2592000" } ∧
    LM.validate_license (fun s => s) (fun t => toString t) (fun t => toString t) "m" 0
        (some { license_key := "KEY01", machine_id := "m", license_type := "TRIAL",
                issued_date := "0", expiry_date := LM.ExpiryVal.date 2592000,
                features := ["basic"], version := "2.1.0",
                signature := "KEY01|m|TRIAL|0|2592000" }) none
      = (true, "Licenza valida") :=
  ⟨by decide,
    C1_issue_then_validate (fun s => s) (fun t => toString t) (fun t => toString t)
      (fun s => s) "m" 0 "KEY01" "TRIAL" _ (by decide) none⟩

/-- C3: with the signature gate passed and the device hash matching, an
`expires_at`-carrying receipt validates as plainly valid up to the expiry
instant, as valid with reason `grace_period` (echoing `expires_at` and
`grace_period_days`) strictly between expiry and the grace deadline, and as
invalid with reason `expired` beyond it; with a zero grace period every
instant strictly after expiry is `expired`. -/
theorem C3_expiry_grace
    (payload : SDK.ReceiptPayload) (device_id : String) (now exp_dt : Int)
    (verify_signature sigOk : Bool)
    (hsig : sigOk = true ∨ verify_signature = false)
    (hdev : payload.device_id_hash = some (sha256hex device_id))
    (hexp : payload.expires_at = some exp_dt) :
    (now ≤ exp_dt →
      SDK.validate_offline_checked payload device_id now verify_signature sigOk
        = { valid := true, reason := none, expires_at := some exp_dt,
            grace_period_days := some (payload.grace_period_days.getD 0) }) ∧
    (exp_dt < now → now ≤ exp_dt + payload.grace_period_days.getD 0 * 86400 →
      SDK.validate_offline_checked payload device_id now verify_signature sigOk
        = { valid := true, reason := some "grace_period", expires_at := some exp_dt,
            grace_period_days := some (payload.grace_period_days.getD 0) }) ∧
    (0 ≤ payload.grace_period_days.getD 0 →
      exp_dt + payload.grace_period_days.getD 0 * 86400 < now →
      SDK.validate_offline_checked payload device_id now verify_signature sigOk
        = { valid := false, reason := some "expired", expires_at := some exp_dt,
            grace_period_days := none }) ∧
    (payload.grace_period_days.getD 0 = 0 → exp_dt < now →
      SDK.validate_offline_checked payload device_id now verify_signature sigOk
        = { valid := false, reason := some "expired", expires_at := some exp_dt,
            grace_period_days := none }) := by
  have hc1 : (verify_signature && !sigOk) = false := by
    rcases hsig with rfl | rfl <;> simp
  refine ⟨?_, ?_, ?_, ?_⟩
  · intro h1
    have h2 : ¬ now > exp_dt := by omega
    simp [SDK.validate_offline_checked, hc1, hdev, hexp, h2]
  · intro h1 h2
    have h3 : ¬ now > exp_dt + payload.grace_period_days.getD 0 * 86400 := by omega
    simp [SDK.validate_offline_checked, hc1, hdev, hexp, h1, h3]
  · intro hg h1
    have h2 : now > exp_dt := by omega
    simp [SDK.validate_offline_checked, hc1, hdev, hexp, h1, h2]
  · intro h0 h1
    have h2 : exp_dt + payload.grace_period_days.getD 0 * 86400 < now := by
      rw [h0]; omega
    have h3 : now > exp_dt + payload.grace_period_days.getD 0 * 86400 := h2
    simp [SDK.validate_offline_checked, hc1, hdev, hexp, h1, h3]

/-- C3, witness: the four cases evaluated on a concrete receipt payload for
device `dev`, expiry instant 1000 and a 3-day grace period. -/
theorem C3_expiry_grace_witness :
    SDK.validate_offline_checked
        { device_id_hash := some (sha256hex "dev"), expires_at := some 1000,
          grace_period_days := some 3 } "dev" 900 true true
      = { valid := true, reason := none, expires_at := some 1000,
          grace_period_days := some 3 } ∧
    SDK.validate_offline_checked
        { device_id_hash := some (sha256hex "dev"), expires_at := some 1000,
          grace_period_days := some 3 } "dev" 2000 true true
      = { valid := true, reason := some "grace_period", expires_at := some 1000,
          grace_period_days := some 3 } ∧
    SDK.validate_offline_checked
        { device_id_hash := some (sha256hex "dev"), expires_at := some 1000,
          grace_period_days := some 3 } "dev" 300000 true true
      = { valid := false, reason := some "expired", expires_at := some 1000,
          grace_period_days := none } :=
  ⟨(C3_expiry_grace _ "dev" 900 1000 true true (Or.inl rfl) rfl rfl).1 (by omega),
    (C3_expiry_grace _ "dev" 2000 1000 true true (Or.inl rfl) rfl rfl).2.1
      (by omega) (by norm_num),
    (C3_expiry_grace _ "dev" 300000 1000 true true (Or.inl rfl) rfl rfl).2.2.1
      (by norm_num) (by norm_num)⟩

/-- C4, counterexample: with signature checking requested and an invalid
signature, a receipt whose device hash does not match is reported
`invalid_signature`, not `device_mismatch` — the signature check runs first,
so the claim's "regardless of signature validity" fails as stated. -/
theorem C4_counterexample :
    SDK.validate_offline_checked
        { device_id_hash := some "zz", expires_at := none, grace_period_days := none }
        "dev" 0 true false
      = { valid := false, reason := some "invalid_signature", expires_at := none,
          grace_period_days := none } ∧
    (some "zz" : Option String) ≠ some (sha256hex "dev") := by
  exact ⟨rfl, by decide⟩

/-- C4, amended: whenever the signature gate passes — the signature is valid
or checking was not requested — a mismatched device hash yields
`device_mismatch`; with checking requested and an invalid signature the
result is `invalid_signature` instead. -/
theorem C4_device_mismatch
    (payload : SDK.ReceiptPayload) (device_id : String) (now : Int)
    (verify_signature sigOk : Bool)
    (hsig : sigOk = true ∨ verify_signature = false)
    (hdev : payload.device_id_hash ≠ some (sha256hex device_id)) :
    SDK.validate_offline_checked payload device_id now verify_signature sigOk
      = { valid := false, reason := some "device_mismatch", expires_at := none,
          grace_period_days := none } := by
  have hc1 : (verify_signature && !sigOk) = false := by
    rcases hsig with rfl | rfl <;> simp
  simp [SDK.validate_offline_checked, hc1, hdev]

/-- C4, witness: the amended statement applied to a concrete mismatched
payload with a valid signature. -/
theorem C4_device_mismatch_witness :
    ((some "zz" : Option String) ≠ some (sha256hex "dev")) ∧
    SDK.validate_offline_checked
        { device_id_hash := some "zz", expires_at := none, grace_period_days := none }
        "dev" 0 true true
      = { valid := false, reason := some "device_mismatch", expires_at := none,
          grace_period_days := none } :=
  ⟨by decide,
    C4_device_mismatch
      { device_id_hash := some "zz", expires_at := none, grace_period_days := none }
      "dev" 0 true true (Or.inl rfl) (by decide)⟩

/-- C9: receipt parsing is total and tagged — a token that does not split on
`.` into exactly three parts headed by the literal `v1` yields the
format-invalid error; a structurally correct token whose middle part fails
base64url/JSON decoding yields the payload-invalid error; and a decodable one
parses. -/
theorem C9_parse_tagged (decode : String → Option SDK.ReceiptPayload) (token : String) :
    ((pySplit '.' token).length ≠ 3 ∨ (pySplit '.' token).headD "" ≠ "v1" →
      SDK.parse decode token = Except.error SDK.ReceiptErr.invalid_receipt_format) ∧
    (∀ v payload sig, pySplit '.' token = [v, payload, sig] → v = "v1" →
      decode payload = none →
      SDK.parse decode token = Except.error SDK.ReceiptErr.invalid_receipt_payload) ∧
    (∀ v payload sig p, pySplit '.' token = [v, payload, sig] → v = "v1" →
      decode payload = some p →
      SDK.parse decode token = Except.ok p) := by
  refine ⟨?_, ?_, ?_⟩
  · intro h
    cases hsp : pySplit '.' token with
    | nil => simp [SDK.parse, hsp]
    | cons v rest =>
      cases rest with
      | nil => simp [SDK.parse, hsp]
      | cons b rest2 =>
        cases rest2 with
        | nil => simp [SDK.parse, hsp]
        | cons c rest3 =>
          cases rest3 with
          | cons dd rest4 => simp [SDK.parse, hsp]
          | nil =>
            rcases h with h | h
            · rw [hsp] at h; simp at h
            · rw [hsp] at h
              simp only [List.headD_cons] at h
              simp [SDK.parse, hsp, h]
  · intro v payload sig hsp hv hdec
    subst hv
    simp [SDK.parse, hsp, hdec]
  · intro v payload sig p hsp hv hdec
    subst hv
    simp [SDK.parse, hsp, hdec]

/-- C9, witness: a two-part token is rejected as format-invalid. -/
theorem C9_parse_tagged_witness :
    (pySplit '.' "a.b").length ≠ 3 ∧
    SDK.parse (fun _ => none) "a.b" = Except.error SDK.ReceiptErr.invalid_receipt_format :=
  ⟨by decide, (C9_parse_tagged (fun _ => none) "a.b").1 (Or.inl (by decide))⟩

/-- C6: the license-record load treats undecodable content as absent, but the
receipt-record load has no handler: a missing file is absent, while corrupt
content raises an uncaught fault to the caller, contradicting the claim. -/
theorem C6_load_faults :
    LM.load_license (some "not-json") (fun _ => none) = none ∧
    SDK.load_receipt none (fun _ => none) = Except.ok none ∧
    SDK.load_receipt (some "not-json") (fun _ => none)
      = Except.error SDK.PyFault.uncaughtDecode :=
  ⟨rfl, rfl, rfl⟩

/-- C7: when both `receipt` and `device_id` are passed explicitly and the
server returns a `new_receipt`, `verify_online` raises `UnboundLocalError`
(the local `stored` was never assigned) and persists nothing; when the
arguments are loaded from storage the replacement receipt is saved with the
previous `activation_id` carried forward. -/
theorem C7_explicit_args_fault :
    SDK.verify_online
        (some { receipt := "old-receipt", device_id := "stored-device",
                activation_id := some "act-1", project_id := none })
        (some "r-token") (some "dev-42") (some "new-receipt") (fun _ => none)
      = Except.error SDK.PyFault.unboundLocal ∧
    SDK.verify_online
        (some { receipt := "old-receipt", device_id := "stored-device",
                activation_id := some "act-1", project_id := none })
        none (some "dev-42") (some "new-receipt") (fun _ => none)
      = Except.ok (some { receipt := "new-receipt", device_id := "dev-42",
                          activation_id := some "act-1", project_id := none }) :=
  ⟨rfl, rfl⟩

/-- C8: issuance stores the sentinel `unlimited` exactly when the resolved
effective duration is nonpositive and `now + duration` days otherwise, and a
well-signed record for this machine validates as never expired on
`unlimited`, while an expiry instant strictly before `now` yields the expired
outcome. -/
theorem C8_unlimited_expiry
    (hmacHex : String → String) (isoRender fmtDate : Int → String)
    (encrypt : String → String) (machine_id : String) (now : Int)
    (stored : Option LM.LicenseData) :
    (∀ license_key license_type tinfo duration_days d,
      LM.LICENSE_TYPES.find? (fun t => t.1 == license_type) = some tinfo →
      LM.generate_license hmacHex isoRender encrypt machine_id now license_key
          license_type duration_days = some d →
      d.expiry_date
        = (if 0 < LM.resolve_duration license_key tinfo.2.1 duration_days
           then LM.ExpiryVal.date
             (now + LM.resolve_duration license_key tinfo.2.1 duration_days * 86400)
           else LM.ExpiryVal.unlimited)) ∧
    (∀ d : LM.LicenseData,
      LM.verify_license_signature hmacHex isoRender d = true →
      d.machine_id = machine_id →
      LM.LICENSE_TYPES.any (fun t => t.1 == d.license_type) = true →
      d.expiry_date = LM.ExpiryVal.unlimited →
      LM.validate_license hmacHex isoRender fmtDate machine_id now (some d) stored
        = (true, "Licenza valida")) ∧
    (∀ (d : LM.LicenseData) (t : Int),
      LM.verify_license_signature hmacHex isoRender d = true →
      d.machine_id = machine_id →
      d.expiry_date = LM.ExpiryVal.date t → t < now →
      LM.validate_license hmacHex isoRender fmtDate machine_id now (some d) stored
        = (false, "Licenza scaduta il " ++ fmtDate t)) := by
  refine ⟨?_, ?_, ?_⟩
  · intro license_key license_type tinfo duration_days d hf hgen
    unfold LM.generate_license at hgen
    rw [hf] at hgen
    obtain rfl := Option.some.inj hgen
    rfl
  · intro d hv hm hty hexp
    simp [LM.validate_license, hv, hm, hexp, hty]
  · intro d t hv hm hexp ht
    have hgt : now > t := ht
    simp [LM.validate_license, hv, hm, hexp, hgt]

/-- C8, witness: the three parts applied to concrete records — an ENTERPRISE
issuance resolving to duration 0 gets the `unlimited` sentinel and stays
valid, and a record expiring at instant 5 is reported expired at clock 10. -/
theorem C8_unlimited_expiry_witness :
    LM.generate_license (fun s => s) (fun t => toString t) (fun s => s) "m" 0
        "KEY01" "ENTERPRISE" none
      = some { license_key := "KEY01", machine_id := "m", license_type := "ENTERPRISE",
               issued_date := "0", expiry_date := LM.ExpiryVal.unlimited,
               features := ["basic", "advanced", "premium", "enterprise"],
               version := "2.1.0", signature := "KEY01|m|ENTERPRISE|0|unlimited" } ∧
    LM.validate_license (fun s => s) (fun t => toString t) (fun t => toString t) "m" 10
        (some { license_key := "KEY01", machine_id := "m", license_type := "ENTERPRISE",
                issued_date := "0", expiry_date := LM.ExpiryVal.unlimited,
                features := ["basic", "advanced", "premium", "enterprise"],
                version := "2.1.0", signature := "KEY01|m|ENTERPRISE|0|unlimited" }) none
      = (true, "Licenza valida") ∧
    LM.validate_license (fun s => s) (fun t => toString t) (fun t => toString t) "m" 10
        (some { license_key := "K", machine_id := "m", license_type := "TRIAL",
                issued_date := "0", expiry_date := LM.ExpiryVal.date 5,
                features := ["basic"], version := "2.1.0",
                signature := "K|m|TRIAL|0|5" }) none
      = (false, "Licenza scaduta il 5") :=
  ⟨by decide,
    (C8_unlimited_expiry (fun s => s) (fun t => toString t) (fun t => toString t)
        (fun s => s) "m" 10 none).2.1 _ (by decide) (by decide) (by decide) (by decide),
    (C8_unlimited_expiry (fun s => s) (fun t => toString t) (fun t => toString t)
        (fun s => s) "m" 10 none).2.2 _ 5 (by decide) (by decide) (by decide) (by decide)⟩

/-- C10: the record signature reads only the five signed fields, so two
records agreeing on them sign identically, and mutating `features` or
`version` of a record changes neither the signature check nor any other step
of `validate_license` — the validation outcome is unchanged. -/
theorem C10_signature_scope
    (hmacHex : String → String) (isoRender fmtDate : Int → String)
    (machine_id : String) (now : Int) (stored : Option LM.LicenseData) :
    (∀ d1 d2 : LM.LicenseData,
      d1.license_key = d2.license_key → d1.machine_id = d2.machine_id →
      d1.license_type = d2.license_type → d1.issued_date = d2.issued_date →
      d1.expiry_date = d2.expiry_date →
      LM.generate_license_signature hmacHex isoRender d1
        = LM.generate_license_signature hmacHex isoRender d2) ∧
    (∀ (d : LM.LicenseData) (f : List String) (v : String),
      LM.validate_license hmacHex isoRender fmtDate machine_id now
          (some { d with features := f, version := v }) stored
        = LM.validate_license hmacHex isoRender fmtDate machine_id now (some d) stored) := by
  constructor
  · intro d1 d2 h1 h2 h3 h4 h5
    unfold LM.generate_license_signature LM.signString
    rw [h1, h2, h3, h4, h5]
  · intro d f v
    cases d
    rfl

/-- C10, witness: two concrete records agreeing on the five signed fields but
not on `features` produce the same signature, and the mutation leaves a valid
record valid. -/
theorem C10_signature_scope_witness :
    LM.generate_license_signature (fun s => s) (fun t => toString t)
        { license_key := "K", machine_id := "m", license_type := "TRIAL",
          issued_date := "0", expiry_date := LM.ExpiryVal.unlimited,
          features := ["basic"], version := "2.1.0", signature := "x" }
      = LM.generate_license_signature (fun s => s) (fun t => toString t)
        { license_key := "K", machine_id := "m", license_type := "TRIAL",
          issued_date := "0", expiry_date := LM.ExpiryVal.unlimited,
          features := [], version := "9", signature := "y" } :=
  (C10_signature_scope (fun s => s) (fun t => toString t) (fun t => toString t)
      "m" 0 none).1 _ _ rfl rfl rfl rfl rfl

/-- C5, witness: the amended checksum-flip statement applied at a concrete
key body whose checksum `10B1` is flipped to `10B2`. -/
theorem C5_checksum_sensitivity_witness :
    ('-' ∉ ("VT25" : String).data) ∧
    ("10B2" : String).data.length
      = (KeyGen.generate_checksum ["VT25", "2510", "TEST", "ABCDE"]).data.length ∧
    countDiff ("10B2" : String).data
      (KeyGen.generate_checksum ["VT25", "2510", "TEST", "ABCDE"]).data = 1 ∧
    KeyGen.validate_generated_key (dashJoin ["VT25", "2510", "TEST", "ABCDE", "10B2"]) = false :=
  ⟨by decide, by decide, by decide,
    C5_checksum_sensitivity.1 "VT25" "2510" "TEST" "ABCDE" "10B2"
      (by decide) (by decide) (by decide) (by decide) (by decide) (by decide)⟩
